import Mathlib

/-!
Verification of the OAuth device-flow core of hyperstack-core.

The embedding models src/backend/auth-device-actions.js: the in-memory
`deviceCodes` JavaScript Map (holding both grant records keyed by the
device code and secondary-index entries keyed by "uc:" + userCode), the
four HTTP actions (device-code, device-approve, device-deny,
device-token), the periodic expiry sweep, and the polling loop of
src/cli.js (login). Times are in milliseconds as Nat (Date.now()).
Randomness (the generated device code and user code) is passed in as
parameters, since the actions treat the generated values opaquely.
-/

namespace DeviceFlow

/-- Grant status, the string field `status` of a device-code record:
"pending" | "approved" | "denied". -/
inductive Status
  | pending
  | approved
  | denied
deriving DecidableEq, Repr

/-- A grant record, as built by the device-code action:
{ userCode, status, userId, apiKey, expiresAt, createdAt }.
`userId` and `apiKey` are null until approval. -/
structure Grant where
  userCode : String
  status : Status
  userId : Option String
  apiKey : Option String
  expiresAt : Nat
  createdAt : Nat
deriving DecidableEq, Repr

/-- A value stored in the `deviceCodes` Map: either a grant record
(under a device-code key) or a secondary-index string (under a
"uc:"-prefixed user-code key, holding the device code). -/
inductive Entry
  | grant (g : Grant)
  | index (deviceCode : String)
deriving DecidableEq, Repr

/-- The `deviceCodes` Map, modelled as an insertion-ordered association
list of string keys, matching JavaScript Map semantics. -/
abbrev Store := List (String × Entry)

/-- Map.get: the value under key k, if present. -/
def mapGet : Store → String → Option Entry
  | [], _ => none
  | (k', v) :: rest, k => if k' == k then some v else mapGet rest k

/-- Map.set: replaces the value in place if the key is present
(JavaScript Map.set keeps the original insertion position), otherwise
appends the new binding. -/
def mapSet : Store → String → Entry → Store
  | [], k, v => [(k, v)]
  | (k', v') :: rest, k, v =>
      if k' == k then (k, v) :: rest else (k', v') :: mapSet rest k v

/-- Map.delete: removes the binding of key k, a no-op if absent. -/
def mapDelete (s : Store) (k : String) : Store :=
  s.filter (fun p => !(p.1 == k))

/-- JavaScript String.prototype.toUpperCase restricted to the code
points the flow uses: uppercases each character. -/
def jsToUpper (s : String) : String := ⟨s.data.map Char.toUpper⟩

/-- JavaScript String.prototype.trim: strips leading and trailing
whitespace. -/
def jsTrim (s : String) : String :=
  ⟨((s.data.dropWhile Char.isWhitespace).reverse.dropWhile
      Char.isWhitespace).reverse⟩

/-- The user-code normalization both device-approve (line 87) and
device-deny (line 121) perform: (req.body.user_code || "").trim().toUpperCase(). -/
def normCode (s : String) : String := jsToUpper (jsTrim s)

/-- The authenticated principal, as returned by authenticate(req):
user.id and user.apiKey are what the approve action records. -/
structure User where
  id : String
  apiKey : String
deriving DecidableEq, Repr

/-- Response of the device-code action (HTTP layer fields that matter
to the flow; verification_uri is a constant and elided). -/
structure CreateResponse where
  device_code : String
  user_code : String
  expires_in : Nat
  interval : Nat
deriving DecidableEq, Repr

/-- ACTION device-code (lines 48-73): unconditionally stores a fresh
pending grant under the generated deviceCode and the secondary index
entry under "uc:" + userCode, then returns the code pair. There is no
collision check: Map.set overwrites any existing binding. -/
def deviceCodeAction (s : Store) (deviceCode userCode : String) (now : Nat) :
    Store × CreateResponse :=
  let g : Grant :=
    { userCode := userCode, status := .pending, userId := none,
      apiKey := none, expiresAt := now + 600000, createdAt := now }
  let s1 := mapSet s deviceCode (.grant g)
  let s2 := mapSet s1 ("uc:" ++ userCode) (.index deviceCode)
  (s2, { device_code := deviceCode, user_code := userCode,
         expires_in := 600, interval := 5 })

/-- Outcome of the device-approve action, mirroring its responses. -/
inductive ApproveResult
  | unauthenticated          -- 401 "Login required to approve device"
  | missingCode              -- 400 "user_code required"
  | notFound                 -- 404 "Invalid or expired code"
  | codeExpired              -- 410 "Code expired"
  | alreadyUsed              -- 409 "Code already used"
  | approvedOk (user_code : String)  -- 200 { message, user_code }
deriving DecidableEq, Repr

/-- ACTION device-approve (lines 83-110): normalizes the submitted
user_code, resolves it through the secondary index, checks expiry and
the pending guard, then mutates the grant in place to approved,
recording the approver's id and apiKey. A secondary-index hit whose
target key holds another index string behaves like JavaScript: the
string value has no expiresAt/status fields, so the expiry test is
false and the pending test fails (409); an empty string value is falsy
and yields 410. -/
def deviceApprove (s : Store) (auth : Option User) (rawUserCode : String)
    (now : Nat) : Store × ApproveResult :=
  match auth with
  | none => (s, .unauthenticated)
  | some u =>
    let uc := normCode rawUserCode
    if uc = "" then (s, .missingCode)
    else
      match mapGet s ("uc:" ++ uc) with
      | none => (s, .notFound)
      | some (.grant _) =>
          -- JS: the value is an object, used as a Map key; get misses,
          -- so `!entry` holds and the action answers 410.
          (s, .codeExpired)
      | some (.index dc) =>
          match mapGet s dc with
          | none => (s, .codeExpired)
          | some (.index dc') =>
              -- JS: entry is a string; falsy only when empty (410);
              -- otherwise entry.status is undefined, not "pending" (409).
              if dc' = "" then (s, .codeExpired) else (s, .alreadyUsed)
          | some (.grant g) =>
              if now > g.expiresAt then (s, .codeExpired)
              else if g.status ≠ .pending then (s, .alreadyUsed)
              else
                (mapSet s dc (.grant
                  { g with
                    status := .approved
                    userId := some u.id
                    apiKey := some u.apiKey }), .approvedOk uc)

/-- Outcome of the device-deny action. -/
inductive DenyResult
  | unauthenticated          -- 401 "Login required"
  | deniedOk                 -- 200 { message: "Device denied" }
deriving DecidableEq, Repr

/-- ACTION device-deny (lines 117-128): normalizes the submitted
user_code and, when it resolves through the secondary index to an
existing grant record, sets its status to denied — with no expiry
check and no pending guard. In every case (code absent, dangling
index, or grant found) the response is the same success message. An
empty index value is falsy in JS and skips the lookup; assigning
.status on a string primitive value is a silent no-op. -/
def deviceDeny (s : Store) (auth : Option User) (rawUserCode : String) :
    Store × DenyResult :=
  match auth with
  | none => (s, .unauthenticated)
  | some _ =>
    let uc := normCode rawUserCode
    match mapGet s ("uc:" ++ uc) with
    | some (.index dc) =>
        if dc = "" then (s, .deniedOk)
        else
          match mapGet s dc with
          | some (.grant g) =>
              (mapSet s dc (.grant { g with status := .denied }), .deniedOk)
          | _ => (s, .deniedOk)
    | _ => (s, .deniedOk)

/-- Outcome of the device-token (redemption) action. -/
inductive RedeemOutcome
  | badRequest                                     -- 400 "device_code required"
  | tokenExpired                                   -- 410 "expired_token"
  | accessDenied                                   -- 403 "access_denied"
  | authorizationPending                           -- 428 "authorization_pending"
  | issued (apiKey : Option String) (userId : Option String)  -- 200 payload
  | unknownState                                   -- 500 "Unknown state"
deriving DecidableEq, Repr

/-- ACTION device-token (lines 141-190), the redeem operation, run to
completion with no interleaving. Not found yields 410; past expiresAt
deletes ONLY the primary entry (the secondary "uc:" entry is left
behind) and yields 410; denied deletes both entries and yields 403;
pending yields 428 with no mutation; approved deletes both entries and
returns the stored apiKey (the prisma profile lookup is external and
carried by userId). A key whose value is an index string behaves like
JavaScript: falsy when empty (410), otherwise no status matches (500). -/
def deviceToken (s : Store) (deviceCode : String) (now : Nat) :
    Store × RedeemOutcome :=
  if deviceCode = "" then (s, .badRequest)
  else
    match mapGet s deviceCode with
    | none => (s, .tokenExpired)
    | some (.index dc') =>
        if dc' = "" then (s, .tokenExpired) else (s, .unknownState)
    | some (.grant g) =>
        if now > g.expiresAt then (mapDelete s deviceCode, .tokenExpired)
        else
          match g.status with
          | .denied =>
              (mapDelete (mapDelete s deviceCode) ("uc:" ++ g.userCode),
               .accessDenied)
          | .pending => (s, .authorizationPending)
          | .approved =>
              (mapDelete (mapDelete s deviceCode) ("uc:" ++ g.userCode),
               .issued g.apiKey g.userId)

/-- The setInterval sweep (lines 19-24): iterates over every Map entry
and deletes those with now > entry[1].expiresAt. Secondary-index
entries hold a string, whose expiresAt is undefined in JavaScript, so
the comparison is false and they are never swept. -/
def sweep (s : Store) (now : Nat) : Store :=
  s.filter (fun p =>
    match p.2 with
    | .grant g => !(decide (now > g.expiresAt))
    | .index _ => true)

/-! The device-token action suspends at the `await prisma...` calls
inside its approved branch (lines 165-169): everything from the start
of the handler up to that first await runs atomically on the event
loop, and the cleanup plus response (lines 172-186) runs atomically
afterwards. `tokenStep` is the handler split at that suspension point;
interleavings of several in-flight polls are sequences of such steps
sharing the store. The non-approved branches contain no await and
complete in a single step. -/

/-- A device-token request in flight: not yet started, suspended at
the prisma awaits of the approved branch (holding the entry it read),
or completed with its HTTP outcome. -/
inductive TokenTask
  | start (deviceCode : String)
  | midApproved (deviceCode : String) (g : Grant)
  | finished (o : RedeemOutcome)
deriving DecidableEq, Repr

/-- One atomic slice of the device-token handler (see `tokenStep`
section comment). The approved branch's first slice only reads and
checks the entry; the deletion and the issued response happen in the
second slice, using the entry captured before the suspension. -/
def tokenStep (now : Nat) (s : Store) : TokenTask → Store × TokenTask
  | .start dc =>
      if dc = "" then (s, .finished .badRequest)
      else
        match mapGet s dc with
        | none => (s, .finished .tokenExpired)
        | some (.index dc') =>
            if dc' = "" then (s, .finished .tokenExpired)
            else (s, .finished .unknownState)
        | some (.grant g) =>
            if now > g.expiresAt then (mapDelete s dc, .finished .tokenExpired)
            else
              match g.status with
              | .denied =>
                  (mapDelete (mapDelete s dc) ("uc:" ++ g.userCode),
                   .finished .accessDenied)
              | .pending => (s, .finished .authorizationPending)
              | .approved => (s, .midApproved dc g)
  | .midApproved dc g =>
      (mapDelete (mapDelete s dc) ("uc:" ++ g.userCode),
       .finished (.issued g.apiKey g.userId))
  | .finished o => (s, .finished o)

/-- Runs a schedule (a list of task indices) over a pool of in-flight
device-token requests sharing one store; each schedule entry lets that
task run one atomic slice. -/
def runSchedule (now : Nat) : Store → List TokenTask → List Nat →
    Store × List TokenTask
  | s, ts, [] => (s, ts)
  | s, ts, idx :: rest =>
      match ts[idx]? with
      | none => runSchedule now s ts rest
      | some t =>
          let p := tokenStep now s t
          runSchedule now p.1 (ts.set idx p.2) rest

/-! The polling client, src/cli.js login, lines 274-339. -/

/-- What one poll of the device-token endpoint comes back with, as the
client's branches distinguish them: HTTP 428, 403, 410, a 200 carrying
api_key, a thrown fetch error, or anything else. -/
inductive PollResp
  | pendingResp                -- status 428
  | deniedResp                 -- status 403
  | expiredResp                -- status 410
  | okResp (apiKey : String)   -- r.ok with data.api_key
  | netError                   -- fetch threw; caught, loop continues
  | unexpected                 -- any other response
deriving DecidableEq, Repr

/-- How the login command ends. The timeout message ("Timed out. Run
'hyperstack-core login' again.") is printed only after the while loop
exhausts maxAttempts, and is distinct from the 410 branch's message
("Code expired. ..."). -/
inductive LoginResult
  | loggedIn (apiKey : String)
  | deniedExit
  | expiredExit
  | unexpectedExit
  | timedOut
deriving DecidableEq, Repr

/-- The while loop of login: attempt counts completed iterations, fuel
is maxAttempts minus attempt; responses gives the outcome of each
attempt's fetch. A 428 and a thrown fetch error both just continue;
403, 410, success, and unexpected responses exit. Returns the result
and the number of attempts consumed. -/
def pollLoopAux (responses : Nat → PollResp) : Nat → Nat → LoginResult × Nat
  | attempt, 0 => (.timedOut, attempt)
  | attempt, fuel + 1 =>
      match responses attempt with
      | .pendingResp => pollLoopAux responses (attempt + 1) fuel
      | .netError => pollLoopAux responses (attempt + 1) fuel
      | .deniedResp => (.deniedExit, attempt + 1)
      | .expiredResp => (.expiredExit, attempt + 1)
      | .okResp k => (.loggedIn k, attempt + 1)
      | .unexpected => (.unexpectedExit, attempt + 1)

/-- maxAttempts = Math.ceil((expires_in || 600) / (interval || 5)),
line 276; for positive naturals Math.ceil(e / i) = (e + i - 1) / i. -/
def maxAttempts (expires_in interval : Nat) : Nat :=
  let e := if expires_in = 0 then 600 else expires_in
  let i := if interval = 0 then 5 else interval
  (e + i - 1) / i

/-- The login poll phase: runs the while loop with the attempt budget
computed from the device-code response. -/
def loginPoll (responses : Nat → PollResp) (expires_in interval : Nat) :
    LoginResult × Nat :=
  pollLoopAux responses 0 (maxAttempts expires_in interval)

/-! Association-list lemmas for the Map operations. -/

theorem mapGet_mapSet_self (s : Store) (k : String) (v : Entry) :
    mapGet (mapSet s k v) k = some v := by
  induction s with
  | nil => simp [mapGet, mapSet]
  | cons p rest ih =>
      obtain ⟨k', v'⟩ := p
      by_cases h : k' = k
      · simp [mapGet, mapSet, h]
      · simp [mapGet, mapSet, h, ih]

theorem mapGet_mapSet_ne (s : Store) (k k' : String) (v : Entry)
    (h : k' ≠ k) : mapGet (mapSet s k v) k' = mapGet s k' := by
  have h2 : ¬(k = k') := fun hh => h hh.symm
  induction s with
  | nil => simp [mapGet, mapSet, h2]
  | cons p rest ih =>
      obtain ⟨k0, v0⟩ := p
      by_cases h0 : k0 = k
      · subst h0
        simp [mapGet, mapSet, h2]
      · by_cases h1 : k0 = k'
        · simp [mapGet, mapSet, h0, h1, h]
        · simp [mapGet, mapSet, h0, h1, ih]

theorem mapGet_mapDelete_self (s : Store) (k : String) :
    mapGet (mapDelete s k) k = none := by
  induction s with
  | nil => simp [mapGet, mapDelete]
  | cons p rest ih =>
      obtain ⟨k0, v0⟩ := p
      by_cases h0 : k0 = k
      · subst h0
        simpa [mapDelete, List.filter_cons, mapGet] using ih
      · simpa [mapDelete, List.filter_cons, mapGet, h0] using ih

theorem mapGet_mapDelete_ne (s : Store) (k k' : String) (h : k' ≠ k) :
    mapGet (mapDelete s k) k' = mapGet s k' := by
  induction s with
  | nil => simp [mapGet, mapDelete]
  | cons p rest ih =>
      obtain ⟨k0, v0⟩ := p
      by_cases h0 : k0 = k
      · subst h0
        have h2 : ¬(k0 = k') := fun hh => h hh.symm
        simpa [mapDelete, List.filter_cons, mapGet, h2] using ih
      · by_cases h1 : k0 = k'
        · simp [mapDelete, List.filter_cons, mapGet, h0, h1, h]
        · simpa [mapDelete, List.filter_cons, mapGet, h0, h1] using ih

/-! Coherence of the interleaved model with the sequential action: a
device-token request that runs its (at most two) slices back to back,
with no other task touching the store in between, computes exactly
deviceToken. -/

theorem tokenStep_run_matches_deviceToken (s : Store) (dc : String) (now : Nat) :
    (tokenStep now (tokenStep now s (.start dc)).1 (tokenStep now s (.start dc)).2).1 =
      (deviceToken s dc now).1 ∧
    (tokenStep now (tokenStep now s (.start dc)).1 (tokenStep now s (.start dc)).2).2 =
      .finished (deviceToken s dc now).2 := by
  by_cases h0 : dc = ""
  · simp [deviceToken, tokenStep, h0]
  · rcases hg : mapGet s dc with _ | e
    · simp [deviceToken, tokenStep, h0, hg]
    · rcases e with g | dc'
      · by_cases hexp : now > g.expiresAt
        · simp [deviceToken, tokenStep, h0, hg, hexp]
        · cases hst : g.status with
          | pending => simp [deviceToken, tokenStep, h0, hg, hexp, hst]
          | approved => simp [deviceToken, tokenStep, h0, hg, hexp, hst]
          | denied => simp [deviceToken, tokenStep, h0, hg, hexp, hst]
      · by_cases h1 : dc' = "" <;> simp [deviceToken, tokenStep, h0, hg, h1]

/-! Concrete fixtures used by the witnesses and counterexamples. -/

/-- A pending grant exactly as the device-code action stores it at
time 0 for user code "ABCD-EF23". -/
def pendingGrant : Grant :=
  { userCode := "ABCD-EF23", status := .pending, userId := none,
    apiKey := none, expiresAt := 600000, createdAt := 0 }

/-- The store right after creating pendingGrant under device code "d1". -/
def pendingStore : Store :=
  [("d1", .grant pendingGrant), ("uc:ABCD-EF23", .index "d1")]

/-- The same grant after user u1 (API key k1) approves it. -/
def approvedGrant : Grant :=
  { userCode := "ABCD-EF23", status := .approved, userId := some "u1",
    apiKey := some "k1", expiresAt := 600000, createdAt := 0 }

/-- The store right after u1 approves the grant. -/
def approvedStore : Store :=
  [("d1", .grant approvedGrant), ("uc:ABCD-EF23", .index "d1")]

/-- A grant whose expiresAt (0) is already in the past at any time ≥ 1. -/
def expiredGrant : Grant :=
  { userCode := "ABCD-EF23", status := .pending, userId := none,
    apiKey := none, expiresAt := 0, createdAt := 0 }

/-- The store holding expiredGrant and its secondary index entry. -/
def expiredStore : Store :=
  [("d1", .grant expiredGrant), ("uc:ABCD-EF23", .index "d1")]

/-- The approving principal u1 with API key k1. -/
def sampleUser : User := { id := "u1", apiKey := "k1" }

/-- C1: the claim says that the expiry branch of redeem and the sweep
remove the primary deviceId entry and the secondary "uc:" entry
together, so that afterwards neither key resolves in the store. The
code does not: sweep deletes only entries whose value has an expiresAt
field in the past — a secondary-index entry holds a bare string, whose
expiresAt is undefined, so the comparison is always false and the
"uc:" entry survives every sweep cycle; likewise the expiry branch of
device-token (line 149) deletes only the primary key. This theorem
evaluates both paths on a grant whose expiresAt (0) is in the past at
time 1: the deviceId entry is gone, but the pairingCode key still
resolves to an (orphaned) index entry, and even a further sweep never
removes it. -/
theorem c1_expiry_removal_leaves_secondary_entry :
    mapGet (sweep expiredStore 1) "d1" = none ∧
    mapGet (sweep expiredStore 1) "uc:ABCD-EF23" = some (.index "d1") ∧
    deviceToken expiredStore "d1" 1 =
      ([("uc:ABCD-EF23", .index "d1")], .tokenExpired) ∧
    sweep [("uc:ABCD-EF23", Entry.index "d1")] 1 =
      [("uc:ABCD-EF23", Entry.index "d1")] := by decide

/-- C2 counterexample: the claim says that creating a grant whose
deviceId or pairingCode is already in use fails with CodeCollision and
does not overwrite. The device-code action has no collision check at
all: on a store whose device code "d1" is in use by an approved grant,
create with the same "d1" returns the ordinary success response and
silently replaces the existing grant with a fresh pending one; and
create with a colliding user code "ABCD-EF23" silently repoints the
secondary index entry at the new device code "d2". -/
theorem c2_create_collision_counterexample :
    (deviceCodeAction approvedStore "d1" "WXYZ-2345" 0).2 =
      { device_code := "d1", user_code := "WXYZ-2345",
        expires_in := 600, interval := 5 } ∧
    mapGet (deviceCodeAction approvedStore "d1" "WXYZ-2345" 0).1 "d1" =
      some (.grant
        { userCode := "WXYZ-2345", status := .pending, userId := none,
          apiKey := none, expiresAt := 600000, createdAt := 0 }) ∧
    mapGet (deviceCodeAction approvedStore "d2" "ABCD-EF23" 0).1
        "uc:ABCD-EF23" = some (.index "d2") := by decide

/-- C2 amended: the device-code action never fails and never checks
for collisions: for every prior store it returns the success response
and unconditionally (over)writes both the primary entry, which then
holds the fresh pending grant, and the secondary index entry. The
hypothesis dc ≠ "uc:" ++ uc holds for every generated device code
(64 hex characters, so never of the index-key shape). -/
theorem c2_create_always_overwrites (s : Store) (dc uc : String) (now : Nat)
    (hne : dc ≠ "uc:" ++ uc) :
    (deviceCodeAction s dc uc now).2 =
      { device_code := dc, user_code := uc, expires_in := 600,
        interval := 5 } ∧
    mapGet (deviceCodeAction s dc uc now).1 dc =
      some (.grant
        { userCode := uc, status := .pending, userId := none,
          apiKey := none, expiresAt := now + 600000, createdAt := now }) ∧
    mapGet (deviceCodeAction s dc uc now).1 ("uc:" ++ uc) =
      some (.index dc) := by
  refine ⟨rfl, ?_, ?_⟩
  · simp only [deviceCodeAction]
    rw [mapGet_mapSet_ne _ _ _ _ hne, mapGet_mapSet_self]
  · simp only [deviceCodeAction]
    rw [mapGet_mapSet_self]

/-- C2 amended witness: the amended claim evaluated at a fresh store. -/
theorem c2_create_always_overwrites_witness :
    ("d1" : String) ≠ "uc:" ++ "ABCD-EF23" ∧
    mapGet (deviceCodeAction [] "d1" "ABCD-EF23" 0).1 "d1" =
      some (.grant
        { userCode := "ABCD-EF23", status := .pending, userId := none,
          apiKey := none, expiresAt := 0 + 600000, createdAt := 0 }) :=
  ⟨by decide, (c2_create_always_overwrites [] "d1" "ABCD-EF23" 0 (by decide)).2.1⟩

/-- C5: the claim says at most one of any number of concurrent redeem
calls on an approved grant can return Issued, the rest seeing Expired.
The device-token handler's approved branch awaits the prisma profile
lookups between the status check and the deletion, so two polls
interleaved at that suspension point (schedule task 0 check, task 1
check, task 0 delete+issue, task 1 delete+issue) BOTH pass the check
against the still-populated store and both return the Issued payload
— a duplicate credential issuance the claim rules out. -/
theorem c5_concurrent_double_issue :
    (runSchedule 5 approvedStore [.start "d1", .start "d1"] [0, 1, 0, 1]).2 =
      [.finished (.issued (some "k1") (some "u1")),
       .finished (.issued (some "k1") (some "u1"))] := by decide

/-- C6: redeem on a deviceId that was never created yields the 410
expired_token outcome with the store untouched, and that outcome is
distinct from authorization_pending. Never-created deviceIds are
formalized as keys absent from the Map; a generated deviceId is 64 hex
characters, hence nonempty (so the 400 missing-parameter branch cannot
trigger) and never of the "uc:" index-key shape (so absence from the
Map is exactly "never created"). -/
theorem c6_unknown_device_redeem (s : Store) (dc : String) (now : Nat)
    (h0 : dc ≠ "") (h1 : mapGet s dc = none) :
    deviceToken s dc now = (s, .tokenExpired) ∧
    RedeemOutcome.tokenExpired ≠ RedeemOutcome.authorizationPending := by
  refine ⟨by simp [deviceToken, h0, h1], by decide⟩

/-- C6 witness: redeem of "d1" against the empty store. -/
theorem c6_unknown_device_redeem_witness :
    mapGet ([] : Store) "d1" = none ∧
    deviceToken [] "d1" 0 = ([], .tokenExpired) :=
  ⟨by decide, (c6_unknown_device_redeem [] "d1" 0 (by decide) (by decide)).1⟩

/-- C3 counterexample: the claim says a grant's status never leaves a
terminal state, in particular that a deny after a successful approve
must not change the status from approved to denied. Running the
actions on a concrete flow — create at time 0, approve by u1 at
time 5 (succeeds, status approved), then deny at any later point —
shows the device-deny action, which has no pending guard, moving the
status from approved back out of its terminal state to denied. -/
theorem c3_deny_after_approve_counterexample :
    deviceApprove (deviceCodeAction [] "d1" "ABCD-EF23" 0).1
        (some sampleUser) "ABCD-EF23" 5 =
      (approvedStore, .approvedOk "ABCD-EF23") ∧
    mapGet (deviceDeny approvedStore (some { id := "u2", apiKey := "k2" })
        "ABCD-EF23").1 "d1" =
      some (.grant { approvedGrant with status := .denied }) := by decide

/-- C3 amended: only the approve action enforces the state machine.
Approve refuses to touch a grant that is not pending — it answers
alreadyUsed and leaves the store unchanged — so no approve ever moves
a grant out of a terminal state. Deny, however, is unguarded: whenever
the pairing code resolves to an existing grant record it sets the
status to denied regardless of the current status, so a deny after a
successful approve does change approved to denied. -/
theorem c3_transitions_amended :
    (∀ (s : Store) (u : User) (raw dc : String) (g : Grant) (t : Nat),
        mapGet s ("uc:" ++ normCode raw) = some (.index dc) →
        mapGet s dc = some (.grant g) →
        g.status ≠ .pending →
        ¬ t > g.expiresAt →
        normCode raw ≠ "" →
        deviceApprove s (some u) raw t = (s, .alreadyUsed)) ∧
    (∀ (s : Store) (u : User) (raw dc : String) (g : Grant),
        mapGet s ("uc:" ++ normCode raw) = some (.index dc) →
        dc ≠ "" →
        mapGet s dc = some (.grant g) →
        deviceDeny s (some u) raw =
          (mapSet s dc (.grant { g with status := .denied }), .deniedOk)) := by
  constructor
  · intro s u raw dc g t h1 h2 h3 h4 h5
    simp [deviceApprove, h1, h2, h3, h4, h5]
  · intro s u raw dc g h1 hdc h2
    simp [deviceDeny, h1, hdc, h2]

/-- C3 amended witness: both parts of the amended claim evaluated on
the store holding the approved grant. -/
theorem c3_transitions_amended_witness :
    deviceApprove approvedStore (some { id := "u2", apiKey := "k2" })
        "ABCD-EF23" 6 = (approvedStore, .alreadyUsed) ∧
    deviceDeny approvedStore (some { id := "u2", apiKey := "k2" })
        "ABCD-EF23" =
      (mapSet approvedStore "d1" (.grant { approvedGrant with status := .denied }),
       .deniedOk) := by
  have h := c3_transitions_amended
  exact ⟨h.1 approvedStore { id := "u2", apiKey := "k2" } "ABCD-EF23" "d1"
           approvedGrant 6 (by decide) (by decide) (by decide) (by decide)
           (by decide),
         h.2 approvedStore { id := "u2", apiKey := "k2" } "ABCD-EF23" "d1"
           approvedGrant (by decide) (by decide) (by decide)⟩

/-- C7: approving the same pairing code twice succeeds only the first
time. The first approve (by u1, while the grant is pending and
unexpired) stores the approved grant carrying u1's identity and
credential reference; the second approve (by any u2, still unexpired)
hits the pending guard, answers alreadyUsed (HTTP 409), and leaves the
store — in particular the recorded approver — exactly as the first
approve left it. -/
theorem c7_second_approve_already_used (s : Store) (u1 u2 : User)
    (raw dc : String) (g : Grant) (t1 t2 : Nat)
    (hidx : mapGet s ("uc:" ++ normCode raw) = some (.index dc))
    (hg : mapGet s dc = some (.grant g))
    (hpend : g.status = .pending)
    (ht1 : ¬ t1 > g.expiresAt)
    (ht2 : ¬ t2 > g.expiresAt)
    (hne : normCode raw ≠ "") :
    deviceApprove s (some u1) raw t1 =
      (mapSet s dc (.grant
        { g with
            status := .approved
            userId := some u1.id
            apiKey := some u1.apiKey }), .approvedOk (normCode raw)) ∧
    deviceApprove (mapSet s dc (.grant
        { g with
            status := .approved
            userId := some u1.id
            apiKey := some u1.apiKey })) (some u2) raw t2 =
      (mapSet s dc (.grant
        { g with
            status := .approved
            userId := some u1.id
            apiKey := some u1.apiKey }), .alreadyUsed) ∧
    mapGet (mapSet s dc (.grant
        { g with
            status := .approved
            userId := some u1.id
            apiKey := some u1.apiKey })) dc =
      some (.grant
        { g with
            status := .approved
            userId := some u1.id
            apiKey := some u1.apiKey }) := by
  have hkey : dc ≠ "uc:" ++ normCode raw := by
    intro hh
    rw [hh, hidx] at hg
    simp at hg
  have hidx2 : mapGet (mapSet s dc (.grant
      { g with
          status := .approved
          userId := some u1.id
          apiKey := some u1.apiKey })) ("uc:" ++ normCode raw) =
      some (.index dc) := by
    rw [mapGet_mapSet_ne _ _ _ _ (fun hh => hkey hh.symm)]
    exact hidx
  have hg2 : mapGet (mapSet s dc (.grant
      { g with
          status := .approved
          userId := some u1.id
          apiKey := some u1.apiKey })) dc =
      some (.grant
        { g with
            status := .approved
            userId := some u1.id
            apiKey := some u1.apiKey }) := mapGet_mapSet_self _ _ _
  refine ⟨?_, ?_, hg2⟩
  · simp [deviceApprove, hne, hidx, hg, ht1, hpend]
  · simp [deviceApprove, hne, hidx2, hg2, ht2]

/-- C7 witness: the double approve evaluated on the freshly created
pending grant, u1 approving at time 5 and u2 retrying at time 6. -/
theorem c7_second_approve_already_used_witness :
    deviceApprove pendingStore (some sampleUser) "ABCD-EF23" 5 =
      (mapSet pendingStore "d1" (.grant
        { pendingGrant with
            status := .approved
            userId := some "u1"
            apiKey := some "k1" }), .approvedOk (normCode "ABCD-EF23")) ∧
    deviceApprove (mapSet pendingStore "d1" (.grant
        { pendingGrant with
            status := .approved
            userId := some "u1"
            apiKey := some "k1" })) (some { id := "u2", apiKey := "k2" })
        "ABCD-EF23" 6 =
      (mapSet pendingStore "d1" (.grant
        { pendingGrant with
            status := .approved
            userId := some "u1"
            apiKey := some "k1" }), .alreadyUsed) := by
  have h := c7_second_approve_already_used pendingStore sampleUser
    { id := "u2", apiKey := "k2" } "ABCD-EF23" "d1" pendingGrant 5 6
    (by decide) (by decide) (by decide) (by decide) (by decide) (by decide)
  exact ⟨h.1, h.2.1⟩

/-- C8: an authenticated deny whose pairing code does not resolve to a
grant record — the code never existed, already expired away, was
already consumed, or its index entry dangles — answers the same
deniedOk success as a real denial and changes nothing, so the deny
endpoint is not an oracle for probing which codes are live. -/
theorem c8_deny_unresolved_noop (s : Store) (u : User) (raw : String)
    (h : ∀ (dc : String) (g : Grant),
        mapGet s ("uc:" ++ normCode raw) = some (.index dc) →
        mapGet s dc = some (.grant g) → False) :
    deviceDeny s (some u) raw = (s, .deniedOk) := by
  rcases hidx : mapGet s ("uc:" ++ normCode raw) with _ | e
  · simp [deviceDeny, hidx]
  · rcases e with g | dc
    · simp [deviceDeny, hidx]
    · by_cases hdc : dc = ""
      · simp [deviceDeny, hidx, hdc]
      · rcases hg : mapGet s dc with _ | e2
        · simp [deviceDeny, hidx, hdc, hg]
        · rcases e2 with g2 | dc2
          · exact absurd hg (fun hh => h dc g2 hidx hh)
          · simp [deviceDeny, hidx, hdc, hg]

/-- C8 witness: denying a code that never existed, on the empty store. -/
theorem c8_deny_unresolved_noop_witness :
    deviceDeny [] (some sampleUser) "ABCD-EF23" = ([], .deniedOk) :=
  c8_deny_unresolved_noop [] sampleUser "ABCD-EF23"
    (fun dc g h1 _ => by simp [mapGet] at h1)

/-- C4: create, approve, redeem in sequence. The first redeem returns
the Issued payload — the approver's apiKey (the credential) and userId
(the reference resolved by the external profile lookup) — and deletes
the grant, so every subsequent redeem of the same deviceId, at any
time, answers tokenExpired and leaves the store as it is. Hypotheses:
the generated codes are nonempty and the device code is not of the
"uc:" index shape (both true of the generator's 64-hex output and of
the 4+4 uppercase pairing alphabet, which is also fixed by the
normalization), and both the approval and the first redeem happen
within the 10-minute TTL. -/
theorem c4_redeem_exactly_once (s0 : Store) (dc uc : String) (u : User)
    (t0 t1 t2 : Nat)
    (hdc : dc ≠ "")
    (hneq : dc ≠ "uc:" ++ uc)
    (hnorm : normCode uc = uc)
    (huc : uc ≠ "")
    (ht1 : ¬ t1 > t0 + 600000)
    (ht2 : ¬ t2 > t0 + 600000) :
    (deviceApprove (deviceCodeAction s0 dc uc t0).1 (some u) uc t1).2 =
      .approvedOk uc ∧
    (deviceToken
        (deviceApprove (deviceCodeAction s0 dc uc t0).1 (some u) uc t1).1
        dc t2).2 = .issued (some u.apiKey) (some u.id) ∧
    ∀ t3 : Nat,
      deviceToken
          (deviceToken
            (deviceApprove (deviceCodeAction s0 dc uc t0).1 (some u) uc t1).1
            dc t2).1 dc t3 =
        ((deviceToken
            (deviceApprove (deviceCodeAction s0 dc uc t0).1 (some u) uc t1).1
            dc t2).1, .tokenExpired) := by
  have hg1 : mapGet (deviceCodeAction s0 dc uc t0).1 ("uc:" ++ uc) =
      some (.index dc) := by
    simp only [deviceCodeAction]
    exact mapGet_mapSet_self _ _ _
  have hg2 : mapGet (deviceCodeAction s0 dc uc t0).1 dc =
      some (.grant
        { userCode := uc, status := .pending, userId := none,
          apiKey := none, expiresAt := t0 + 600000, createdAt := t0 }) := by
    simp only [deviceCodeAction]
    rw [mapGet_mapSet_ne _ _ _ _ hneq]
    exact mapGet_mapSet_self _ _ _
  have happrove :
      deviceApprove (deviceCodeAction s0 dc uc t0).1 (some u) uc t1 =
        (mapSet (deviceCodeAction s0 dc uc t0).1 dc (.grant
          { userCode := uc, status := .approved, userId := some u.id,
            apiKey := some u.apiKey, expiresAt := t0 + 600000,
            createdAt := t0 }), .approvedOk uc) := by
    simp [deviceApprove, hnorm, huc, hg1, hg2, ht1]
  have hg3 : mapGet (mapSet (deviceCodeAction s0 dc uc t0).1 dc (.grant
      { userCode := uc, status := .approved, userId := some u.id,
        apiKey := some u.apiKey, expiresAt := t0 + 600000,
        createdAt := t0 })) dc =
      some (.grant
        { userCode := uc, status := .approved, userId := some u.id,
          apiKey := some u.apiKey, expiresAt := t0 + 600000,
          createdAt := t0 }) := mapGet_mapSet_self _ _ _
  have hredeem :
      deviceToken (mapSet (deviceCodeAction s0 dc uc t0).1 dc (.grant
          { userCode := uc, status := .approved, userId := some u.id,
            apiKey := some u.apiKey, expiresAt := t0 + 600000,
            createdAt := t0 })) dc t2 =
        (mapDelete (mapDelete (mapSet (deviceCodeAction s0 dc uc t0).1 dc
            (.grant
              { userCode := uc, status := .approved, userId := some u.id,
                apiKey := some u.apiKey, expiresAt := t0 + 600000,
                createdAt := t0 })) dc) ("uc:" ++ uc),
         .issued (some u.apiKey) (some u.id)) := by
    simp [deviceToken, hdc, hg3, ht2]
  have hgone : mapGet (mapDelete (mapDelete (mapSet
      (deviceCodeAction s0 dc uc t0).1 dc (.grant
        { userCode := uc, status := .approved, userId := some u.id,
          apiKey := some u.apiKey, expiresAt := t0 + 600000,
          createdAt := t0 })) dc) ("uc:" ++ uc)) dc = none := by
    rw [mapGet_mapDelete_ne _ _ _ hneq]
    exact mapGet_mapDelete_self _ _
  refine ⟨by rw [happrove], ?_, ?_⟩
  · rw [happrove]
    exact congrArg Prod.snd hredeem
  · intro t3
    rw [happrove]
    show deviceToken (deviceToken (mapSet (deviceCodeAction s0 dc uc t0).1 dc
        (.grant
          { userCode := uc, status := .approved, userId := some u.id,
            apiKey := some u.apiKey, expiresAt := t0 + 600000,
            createdAt := t0 })) dc t2).1 dc t3 = _
    rw [hredeem]
    show deviceToken (mapDelete (mapDelete (mapSet
        (deviceCodeAction s0 dc uc t0).1 dc (.grant
          { userCode := uc, status := .approved, userId := some u.id,
            apiKey := some u.apiKey, expiresAt := t0 + 600000,
            createdAt := t0 })) dc) ("uc:" ++ uc)) dc t3 = _
    simp [deviceToken, hdc, hgone]

/-- C4 witness: the whole flow on concrete data — created at time 0,
approved by u1 at time 5, redeemed at time 10, redeemed again at
time 20. -/
theorem c4_redeem_exactly_once_witness :
    (deviceApprove (deviceCodeAction [] "d1" "ABCD-EF23" 0).1
        (some sampleUser) "ABCD-EF23" 5).2 = .approvedOk "ABCD-EF23" ∧
    (deviceToken
        (deviceApprove (deviceCodeAction [] "d1" "ABCD-EF23" 0).1
          (some sampleUser) "ABCD-EF23" 5).1 "d1" 10).2 =
      .issued (some "k1") (some "u1") ∧
    deviceToken
        (deviceToken
          (deviceApprove (deviceCodeAction [] "d1" "ABCD-EF23" 0).1
            (some sampleUser) "ABCD-EF23" 5).1 "d1" 10).1 "d1" 20 =
      ((deviceToken
          (deviceApprove (deviceCodeAction [] "d1" "ABCD-EF23" 0).1
            (some sampleUser) "ABCD-EF23" 5).1 "d1" 10).1, .tokenExpired) := by
  have h := c4_redeem_exactly_once [] "d1" "ABCD-EF23" sampleUser 0 5 10
    (by decide) (by decide) (by decide) (by decide) (by decide) (by decide)
  exact ⟨h.1, h.2.1, h.2.2 20⟩

/-- Helper: the while loop never uses more attempts than its fuel,
counting from the attempt index it starts at. -/
theorem pollLoopAux_used_le (res : Nat → PollResp) :
    ∀ (f a : Nat), (pollLoopAux res a f).2 ≤ a + f := by
  intro f
  induction f with
  | zero => intro a; simp [pollLoopAux]
  | succ n ih =>
      intro a
      cases hr : res a with
      | pendingResp =>
          have h2 := ih (a + 1)
          simp only [pollLoopAux, hr]
          omega
      | netError =>
          have h2 := ih (a + 1)
          simp only [pollLoopAux, hr]
          omega
      | deniedResp => simp [pollLoopAux, hr]
      | expiredResp => simp [pollLoopAux, hr]
      | okResp k => simp [pollLoopAux, hr]
      | unexpected => simp [pollLoopAux, hr]

/-- Helper: if every poll comes back non-terminal (pending or a
transport error), the loop runs out of fuel and reports timedOut. -/
theorem pollLoopAux_all_nonterminal (res : Nat → PollResp)
    (h : ∀ j, res j = PollResp.pendingResp ∨ res j = PollResp.netError) :
    ∀ f a, (pollLoopAux res a f).1 = LoginResult.timedOut := by
  intro f
  induction f with
  | zero => intro a; simp [pollLoopAux]
  | succ n ih =>
      intro a
      rcases h a with hr | hr <;> simp [pollLoopAux, hr, ih]

/-- C9: the login poll loop (a) performs at most
maxAttempts = Math.ceil((expires_in || 600) / (interval || 5)) redeem
attempts whatever the responses are, (b) consumes a thrown transport
error exactly like a 428 pending response — one attempt from the same
budget, then continue — and (c) when every response within the budget
is non-terminal it ends in the client-side timedOut result, which is a
different outcome from the server-side expiredExit (the 410 branch). -/
theorem c9_poll_attempt_budget (res : Nat → PollResp) (e i : Nat)
    (hres : ∀ j, res j = PollResp.pendingResp ∨ res j = PollResp.netError) :
    (∀ res2 : Nat → PollResp, (loginPoll res2 e i).2 ≤ maxAttempts e i) ∧
    (∀ (res2 : Nat → PollResp) (a f : Nat),
        res2 a = PollResp.netError ∨ res2 a = PollResp.pendingResp →
        pollLoopAux res2 a (f + 1) = pollLoopAux res2 (a + 1) f) ∧
    (loginPoll res e i).1 = LoginResult.timedOut ∧
    LoginResult.timedOut ≠ LoginResult.expiredExit := by
  refine ⟨?_, ?_, ?_, by decide⟩
  · intro res2
    have h2 := pollLoopAux_used_le res2 (maxAttempts e i) 0
    simpa [loginPoll] using h2
  · intro res2 a f hr
    rcases hr with hr | hr <;> simp [pollLoopAux, hr]
  · have h2 := pollLoopAux_all_nonterminal res hres (maxAttempts e i) 0
    simpa [loginPoll] using h2

/-- C9 witness: a server that answers 428 forever — the default
600-second budget at a 5-second interval times out after at most 120
attempts, and the netError/pending step identity at attempt 0. -/
theorem c9_poll_attempt_budget_witness :
    (loginPoll (fun _ => PollResp.pendingResp) 600 5).1 =
      LoginResult.timedOut ∧
    (loginPoll (fun _ => PollResp.pendingResp) 600 5).2 ≤ maxAttempts 600 5 ∧
    pollLoopAux (fun _ => PollResp.netError) 0 (3 + 1) =
      pollLoopAux (fun _ => PollResp.netError) (0 + 1) 3 := by
  have h := c9_poll_attempt_budget (fun _ => PollResp.pendingResp) 600 5
    (fun _ => Or.inl rfl)
  exact ⟨h.2.2.1, h.1 _, h.2.1 (fun _ => PollResp.netError) 0 3 (Or.inl rfl)⟩

/-- C10: both the approve and the deny action see the submitted
pairing code only through the normalization of line 87 resp. 121 —
trim, then uppercase — applied before the "uc:"-prefixed secondary
index lookup, so any two raw inputs with the same normal form (for
instance a code typed in lowercase with stray spaces and the exact
generated code) produce identical responses and identical stores. -/
theorem c10_user_code_normalization (s : Store) (auth : Option User)
    (r1 r2 : String) (t : Nat) (h : normCode r1 = normCode r2) :
    deviceApprove s auth r1 t = deviceApprove s auth r2 t ∧
    deviceDeny s auth r1 = deviceDeny s auth r2 := by
  constructor
  · simp only [deviceApprove, h]
  · simp only [deviceDeny, h]

/-- C10 witness: "  abcd-ef23 " and "ABCD-EF23" normalize alike, get
identical approve responses, and the sloppy form really approves the
freshly created grant. -/
theorem c10_user_code_normalization_witness :
    normCode "  abcd-ef23 " = normCode "ABCD-EF23" ∧
    deviceApprove pendingStore (some sampleUser) "  abcd-ef23 " 5 =
      deviceApprove pendingStore (some sampleUser) "ABCD-EF23" 5 ∧
    (deviceApprove pendingStore (some sampleUser) "  abcd-ef23 " 5).2 =
      .approvedOk "ABCD-EF23" := by
  have h := c10_user_code_normalization pendingStore (some sampleUser)
    "  abcd-ef23 " "ABCD-EF23" 5 (by decide)
  exact ⟨by decide, h.1, by decide⟩

end DeviceFlow
